import Mathlib

/-!
Shallow embedding of the WordLocalAutosave service (`src/main.py`) and proofs
about its autosave policy, registry handling and connection state machine.

Modelling conventions:
* The monotonic clock (`time.monotonic()`) is an `Int` supplied as a parameter
  wherever the code reads it.
* Host (COM) calls that may raise are modelled by `Option` fields or boolean
  environment inputs: `Doc.saved = none` means the `doc.Saved` access raised,
  `Doc.saveSucceeds` tells whether `doc.Save()` succeeds, `dispatchOk` /
  `eventsOk` tell whether `gencache.EnsureDispatch` / `DispatchWithEvents`
  succeed, `livenessOk` tells whether the liveness probe `self.word.name`
  succeeds.
* `Doc.fullName = none` models both a missing `FullName` attribute (so
  `getattr(doc, 'FullName', default)` returns the default) and an attribute
  access that raises (which the code catches with the same effect).
* `self.last_save_times` (a Python dict keyed by the document path) is an
  association list with Python-dict update/lookup/delete semantics.
* Functions return, besides the new state, the number of `doc.Save()` host
  calls they issued, so that "no save call occurs" is a provable statement.
-/

namespace WordLocalAutosave

/-- A Word document as seen through the COM boundary.
`fullName`: result of accessing `doc.FullName` (`none` = missing or raised);
`wrapperId`: models the Python `id(doc)` of the wrapper object;
`saved`: result of accessing `doc.Saved` (`none` = the access raised);
`saveSucceeds`: whether a `doc.Save()` call would succeed. -/
structure Doc where
  fullName : Option String
  wrapperId : Nat
  saved : Option Bool
  saveSucceeds : Bool
  deriving Repr, DecidableEq

/-- The registry `self.last_save_times`: document key → last save time. -/
abbrev Registry := List (String × Int)

/-- Python `d.get(k, dflt)`. -/
def dictGet (d : Registry) (k : String) (dflt : Int) : Int :=
  match d.find? (fun p => p.1 == k) with
  | some p => p.2
  | none => dflt

/-- Python `k in d`. -/
def dictContains (d : Registry) (k : String) : Bool :=
  d.any (fun p => p.1 == k)

/-- Python `d[k] = v`: replace in place if present, else append. -/
def dictSet (d : Registry) (k : String) (v : Int) : Registry :=
  if dictContains d k then
    d.map (fun p => if p.1 == k then (k, v) else p)
  else
    d ++ [(k, v)]

/-- Python `del d[k]`. -/
def dictDel (d : Registry) (k : String) : Registry :=
  d.filter (fun p => !(p.1 == k))

/-- The key `try_autosave` tracks a document under:
`path = getattr(doc, 'FullName', f'Unknown_{id(doc)}')`
(the enclosing `except` branch produces the same default). -/
def docPath (doc : Doc) : String :=
  match doc.fullName with
  | some p => p
  | none => "Unknown_" ++ toString doc.wrapperId

/-- Result of one `try_autosave` call: returned bool, new
`last_save_times`, and number of `doc.Save()` host calls issued. -/
structure AutosaveResult where
  ret : Bool
  times : Registry
  saveCalls : Nat
  deriving Repr, DecidableEq

/-- `WordAutosaveService.try_autosave` (src/main.py:262-307).
`debounce` is `self.config["debounce_seconds"]`, `times` is
`self.last_save_times`, `now` is `time.monotonic()`. -/
def try_autosave (debounce : Int) (times : Registry) (now : Int) (doc : Doc) :
    AutosaveResult :=
  let path := docPath doc
  -- `doc.Saved` truthy → already saved, return False; raised → fall through
  match doc.saved with
  | some true => ⟨false, times, 0⟩
  | _ =>
    -- debounce check: `now - last_time < debounce_seconds` → return False
    let last_time := dictGet times path 0
    if now - last_time < debounce then ⟨false, times, 0⟩
    else
      -- `doc.Save()`; on success record `now`, on failure leave times alone
      if doc.saveSucceeds then ⟨true, dictSet times path now, 1⟩
      else ⟨false, times, 1⟩

/-- Mutable service state touched by the handlers and the connection logic
(fields of `WordAutosaveService.__init__`). -/
structure ServiceState where
  last_save_times : Registry
  connected : Bool
  reconnect_attempts : Nat
  last_poll_time : Int
  polling_interval : Nat
  running : Bool
  deriving Repr, DecidableEq

/-- The registry key `on_document_before_save` and `on_document_before_close`
use: `path = getattr(doc, 'FullName', None)`, and only a truthy (non-`None`,
non-empty) `path` touches the registry. `none` = the handler leaves the
registry alone. -/
def handler_key (doc : Doc) : Option String :=
  match doc.fullName with
  | some p => if p = "" then none else some p
  | none => none

/-- `on_document_before_save` (src/main.py:246-260): on a manual save
notification, record `time.monotonic()` under `doc.FullName` when that path
is available and truthy; the `cancel` out-parameter is returned untouched.
Result: (new state, number of `doc.Save()` calls issued, cancel). -/
def on_document_before_save (st : ServiceState) (now : Int) (doc : Doc)
    (cancel : Bool) : ServiceState × Nat × Bool :=
  match handler_key doc with
  | some p => ({st with last_save_times := dictSet st.last_save_times p now}, 0, cancel)
  | none => (st, 0, cancel)

/-- `on_document_before_close` (src/main.py:227-244): final
`try_autosave`, then `if path and path in self.last_save_times: del ...`
deletes the `FullName` key when that path is available, truthy and present.
Result: (new state, number of `doc.Save()` calls issued). -/
def on_document_before_close (debounce : Int) (st : ServiceState) (now : Int)
    (doc : Doc) : ServiceState × Nat :=
  let r := try_autosave debounce st.last_save_times now doc
  let times2 :=
    match handler_key doc with
    | some p => if dictContains r.times p then dictDel r.times p else r.times
    | none => r.times
  ({st with last_save_times := times2}, r.saveCalls)

/-- `connect_to_word` (src/main.py:402-447). `dispatchOk`: whether
`gencache.EnsureDispatch("Word.Application")` succeeds; `eventsOk`: whether
`DispatchWithEvents` succeeds. Returns the new state and the bool result.
On success without events, `config["polling_interval"]` is clamped to
`min(polling_interval, 5)`. -/
def connect_to_word (dispatchOk eventsOk : Bool) (st : ServiceState) :
    ServiceState × Bool :=
  if dispatchOk then
    let pi := if eventsOk then st.polling_interval
              else min st.polling_interval 5
    ({st with connected := true, polling_interval := pi}, true)
  else
    ({st with connected := false}, false)

/-- `_check_connection` (src/main.py:313-329): when connected, a failing
probe of `self.word.name` sets `self.connected = False`. -/
def check_connection (st : ServiceState) (livenessOk : Bool) : ServiceState :=
  if !st.connected then st
  else if livenessOk then st
  else {st with connected := false}

/-- `_handle_reconnect` (src/main.py:331-340): while disconnected, increment
`reconnect_attempts`; once it exceeds the threshold, call `connect_to_word`
and reset the counter only if that returned True. Second component: number
of `connect_to_word` calls made. -/
def handle_reconnect (threshold : Nat) (st : ServiceState)
    (dispatchOk eventsOk : Bool) : ServiceState × Nat :=
  if st.connected then (st, 0)
  else
    let st1 := {st with reconnect_attempts := st.reconnect_attempts + 1}
    if st1.reconnect_attempts > threshold then
      let res := connect_to_word dispatchOk eventsOk st1
      if res.2 then ({res.1 with reconnect_attempts := 0}, 1)
      else (res.1, 1)
    else (st1, 0)

/-- The connection-related portion of one scheduler tick of `run`
(src/main.py:460-475): `_check_connection()` then `_handle_reconnect()`. -/
def conn_tick (threshold : Nat) (st : ServiceState)
    (livenessOk dispatchOk eventsOk : Bool) : ServiceState × Nat :=
  handle_reconnect threshold (check_connection st livenessOk) dispatchOk eventsOk

/-- `n` consecutive scheduler ticks in which the liveness probe and any
connect attempt both fail; counts the total `connect_to_word` calls. -/
def run_fail_ticks (threshold : Nat) (st : ServiceState) : Nat → ServiceState × Nat
  | 0 => (st, 0)
  | n + 1 =>
    let r := conn_tick threshold st false false false
    let rest := run_fail_ticks threshold r.1 n
    (rest.1, r.2 + rest.2)

/-! ### Helper lemmas -/

theorem find?_map_replace (k : String) (v : Int) :
    ∀ d : Registry, dictContains d k = true →
      (d.map (fun p => if p.1 == k then (k, v) else p)).find?
        (fun p => p.1 == k) = some (k, v)
  | [], h => by simp [dictContains] at h
  | p :: d, h => by
    by_cases hp : p.1 = k
    · have hb : (p.1 == k) = true := by simp [hp]
      simp [hb, List.find?]
    · have hb : (p.1 == k) = false := by simp [hp]
      have htail : dictContains d k = true := by
        simpa [dictContains, hb] using h
      simpa [hb, List.find?] using find?_map_replace k v d htail

theorem find?_append_single (k : String) (v : Int) :
    ∀ d : Registry, dictContains d k = false →
      (d ++ [(k, v)]).find? (fun p => p.1 == k) = some (k, v)
  | [], _ => by simp [List.find?]
  | p :: d, h => by
    have hb : (p.1 == k) = false := by
      by_contra hc
      simp only [Bool.not_eq_false] at hc
      simp [dictContains, hc] at h
    have htail : dictContains d k = false := by
      simpa [dictContains, hb] using h
    simpa [hb, List.find?] using find?_append_single k v d htail

theorem dictGet_dictSet_self (d : Registry) (k : String) (v : Int) :
    dictGet (dictSet d k v) k 0 = v := by
  cases h : dictContains d k with
  | true =>
    simp only [dictSet, dictGet, h, if_true]
    rw [find?_map_replace k v d h]
  | false =>
    simp only [dictSet, dictGet, h, Bool.false_eq_true, if_false]
    rw [find?_append_single k v d h]

theorem dictContains_eq_isSome (d : Registry) (k : String) :
    dictContains d k = (d.find? (fun p => p.1 == k)).isSome := by
  induction d with
  | nil => rfl
  | cons p d ih =>
    cases hb : (p.1 == k) with
    | true => simp [dictContains, List.find?, hb]
    | false => simpa [dictContains, List.find?, hb] using ih

theorem dictContains_dictSet_self (d : Registry) (k : String) (v : Int) :
    dictContains (dictSet d k v) k = true := by
  rw [dictContains_eq_isSome]
  cases h : dictContains d k with
  | true =>
    simp only [dictSet, h, if_true]
    rw [find?_map_replace k v d h]
    rfl
  | false =>
    simp only [dictSet, h, Bool.false_eq_true, if_false]
    rw [find?_append_single k v d h]
    rfl

theorem dictContains_dictDel_self (d : Registry) (k : String) :
    dictContains (dictDel d k) k = false := by
  induction d with
  | nil => rfl
  | cons p d ih =>
    cases hb : (p.1 == k) with
    | true => simp [dictDel, dictContains, hb] at ih ⊢
    | false => simp [dictDel, dictContains, hb] at ih ⊢

/-! ### Claims about `try_autosave` -/

/-- C1: for every open document that is dirty, if the elapsed monotonic time
since its last recorded save (defaulting to 0 when the document has no
SaveRecord entry) is at least `debounceSeconds`, then `try_autosave`
performs exactly one save call, updates the document's SaveRecord entry to
the current monotonic time, and returns true. (The host save call is
assumed to succeed; its failure is claim C7.) -/
theorem C1_autosave_eligible_dirty_saves (debounce : Int) (times : Registry)
    (now : Int) (doc : Doc)
    (hdirty : doc.saved = some false)
    (helig : debounce ≤ now - dictGet times (docPath doc) 0)
    (hok : doc.saveSucceeds = true) :
    (try_autosave debounce times now doc).saveCalls = 1 ∧
    dictGet (try_autosave debounce times now doc).times (docPath doc) 0 = now ∧
    (try_autosave debounce times now doc).ret = true := by
  have hnl : ¬ (now - dictGet times (docPath doc) 0 < debounce) :=
    not_lt.mpr helig
  simp only [try_autosave, hdirty, hok, if_neg hnl, if_true]
  exact ⟨trivial, dictGet_dictSet_self times (docPath doc) now, trivial⟩

/-- Witness for C1 at the spec's scenario: debounce 10, last save at 0,
dirty again at t = 11 → saved, record updated to 11. -/
theorem C1_witness :
    (try_autosave 10 [("a.docx", 0)] 11 ⟨some "a.docx", 0, some false, true⟩).saveCalls = 1 ∧
    dictGet (try_autosave 10 [("a.docx", 0)] 11 ⟨some "a.docx", 0, some false, true⟩).times
      (docPath ⟨some "a.docx", 0, some false, true⟩) 0 = 11 ∧
    (try_autosave 10 [("a.docx", 0)] 11 ⟨some "a.docx", 0, some false, true⟩).ret = true :=
  C1_autosave_eligible_dirty_saves 10 [("a.docx", 0)] 11
    ⟨some "a.docx", 0, some false, true⟩ rfl (by decide) rfl

/-- C2: for every open document that is dirty, if the elapsed monotonic time
since its last recorded save is strictly less than `debounceSeconds`,
`try_autosave` performs no save call, leaves the registry unchanged and
returns false. -/
theorem C2_autosave_debounced (debounce : Int) (times : Registry)
    (now : Int) (doc : Doc)
    (hdirty : doc.saved = some false)
    (hlt : now - dictGet times (docPath doc) 0 < debounce) :
    try_autosave debounce times now doc = ⟨false, times, 0⟩ := by
  simp only [try_autosave, hdirty, if_pos hlt]

/-- Witness for C2 at the spec's scenario: debounce 10, last save at 0,
dirty at t = 5 → not saved. -/
theorem C2_witness :
    try_autosave 10 [("a.docx", 0)] 5 ⟨some "a.docx", 0, some false, true⟩ =
      ⟨false, [("a.docx", 0)], 0⟩ :=
  C2_autosave_debounced 10 [("a.docx", 0)] 5
    ⟨some "a.docx", 0, some false, true⟩ rfl (by decide)

/-- C7: if the host save call fails for an eligible dirty document,
`try_autosave` returns false and `last_save_times` is left unchanged, so
the document stays eligible for retry. (Exactly one save call was made.) -/
theorem C7_failed_save_leaves_registry (debounce : Int) (times : Registry)
    (now : Int) (doc : Doc)
    (hdirty : doc.saved = some false)
    (helig : debounce ≤ now - dictGet times (docPath doc) 0)
    (hfail : doc.saveSucceeds = false) :
    try_autosave debounce times now doc = ⟨false, times, 1⟩ := by
  have hnl : ¬ (now - dictGet times (docPath doc) 0 < debounce) :=
    not_lt.mpr helig
  simp only [try_autosave, hdirty, hfail, if_neg hnl, Bool.false_eq_true, if_false]

/-- Witness for C7: eligible dirty document whose save call fails. -/
theorem C7_witness :
    try_autosave 10 [("a.docx", 0)] 11 ⟨some "a.docx", 0, some false, false⟩ =
      ⟨false, [("a.docx", 0)], 1⟩ :=
  C7_failed_save_leaves_registry 10 [("a.docx", 0)] 11
    ⟨some "a.docx", 0, some false, false⟩ rfl (by decide) rfl

/-- C8: if the document's dirty state cannot be determined (the `doc.Saved`
access raises), `try_autosave` behaves exactly as it does for a dirty
document — the save is still attempted, subject only to the debounce
check. -/
theorem C8_unknown_dirty_treated_as_dirty (debounce : Int) (times : Registry)
    (now : Int) (doc : Doc)
    (hun : doc.saved = none) :
    try_autosave debounce times now doc =
      try_autosave debounce times now {doc with saved := some false} ∧
    (debounce ≤ now - dictGet times (docPath doc) 0 →
      (try_autosave debounce times now doc).saveCalls = 1) := by
  constructor
  · simp only [try_autosave, hun]
    rfl
  · intro helig
    have hnl : ¬ (now - dictGet times (docPath doc) 0 < debounce) :=
      not_lt.mpr helig
    simp only [try_autosave, hun, if_neg hnl]
    cases doc.saveSucceeds <;> simp

/-- Witness for C8: a document whose `Saved` access raises is saved once
when the debounce window has elapsed. -/
theorem C8_witness :
    (try_autosave 10 [("a.docx", 0)] 11 ⟨some "a.docx", 0, none, true⟩ =
      try_autosave 10 [("a.docx", 0)] 11 ⟨some "a.docx", 0, some false, true⟩) ∧
    (try_autosave 10 [("a.docx", 0)] 11 ⟨some "a.docx", 0, none, true⟩).saveCalls = 1 :=
  ⟨(C8_unknown_dirty_treated_as_dirty 10 [("a.docx", 0)] 11
      ⟨some "a.docx", 0, none, true⟩ rfl).1,
   (C8_unknown_dirty_treated_as_dirty 10 [("a.docx", 0)] 11
      ⟨some "a.docx", 0, none, true⟩ rfl).2 (by decide)⟩

/-- C10: for every open document whose dirty flag is definitively false
(the host reports it as saved), `try_autosave` returns false, makes no
save call and leaves the registry unchanged. -/
theorem C10_clean_document_not_saved (debounce : Int) (times : Registry)
    (now : Int) (doc : Doc)
    (hclean : doc.saved = some true) :
    try_autosave debounce times now doc = ⟨false, times, 0⟩ := by
  simp only [try_autosave, hclean]

/-- Witness for C10: a clean document is never saved, even past debounce. -/
theorem C10_witness :
    try_autosave 10 [("a.docx", 0)] 100 ⟨some "a.docx", 0, some true, true⟩ =
      ⟨false, [("a.docx", 0)], 0⟩ :=
  C10_clean_document_not_saved 10 [("a.docx", 0)] 100
    ⟨some "a.docx", 0, some true, true⟩ rfl

/-! ### Claims about the notification handlers -/

/-- C4 counterexample: the claim "afterwards the document's entry is removed
from the SaveRecord registry" fails for a document whose `FullName` is not
available. `try_autosave` tracks such a document under the synthetic key
`Unknown_{id(doc)}`, but the close handler computes
`path = getattr(doc, 'FullName', None)` = `None` and removes nothing: after
the final save (one save call was made), the synthetic entry is still in
the registry. -/
theorem C4_counterexample :
    (on_document_before_close 10 ⟨[], true, 0, 0, 15, true⟩ 100
        ⟨none, 7, some false, true⟩).2 = 1 ∧
    dictContains (on_document_before_close 10 ⟨[], true, 0, 0, 15, true⟩ 100
        ⟨none, 7, some false, true⟩).1.last_save_times
      (docPath ⟨none, 7, some false, true⟩) = true := by
  exact ⟨rfl, rfl⟩

/-- C4 (amended): on a document-before-close notification the
Save-Eligibility Policy is applied one final time — a dirty,
debounce-eligible document is saved — and afterwards the entry keyed by
the document's full path is removed from the registry, provided that full
path is available (and truthy); a document without an available path keeps
its synthetic entry. -/
theorem C4_before_close_final_save_and_remove (debounce : Int)
    (st : ServiceState) (now : Int) (doc : Doc) (p : String)
    (hp : doc.fullName = some p) (hne : p ≠ "")
    (hdirty : doc.saved = some false)
    (helig : debounce ≤ now - dictGet st.last_save_times p 0)
    (hok : doc.saveSucceeds = true) :
    (on_document_before_close debounce st now doc).2 = 1 ∧
    dictContains (on_document_before_close debounce st now doc).1.last_save_times
      p = false := by
  have hk : handler_key doc = some p := by simp [handler_key, hp, hne]
  have hpath : docPath doc = p := by simp [docPath, hp]
  have hnl : ¬ (now - dictGet st.last_save_times p 0 < debounce) :=
    not_lt.mpr helig
  have hr : try_autosave debounce st.last_save_times now doc =
      ⟨true, dictSet st.last_save_times p now, 1⟩ := by
    simp only [try_autosave, hdirty, hok, hpath, if_neg hnl, if_true]
  simp only [on_document_before_close, hr, hk, dictContains_dictSet_self, if_true]
  exact ⟨trivial, dictContains_dictDel_self _ p⟩

/-- Witness for the amended C4: a dirty, debounce-eligible document with a
path is saved once by the close handler and its entry is removed. -/
theorem C4_witness :
    (on_document_before_close 10 ⟨[("a.docx", 0)], true, 0, 0, 15, true⟩ 11
        ⟨some "a.docx", 0, some false, true⟩).2 = 1 ∧
    dictContains (on_document_before_close 10 ⟨[("a.docx", 0)], true, 0, 0, 15, true⟩ 11
        ⟨some "a.docx", 0, some false, true⟩).1.last_save_times "a.docx" = false :=
  C4_before_close_final_save_and_remove 10 ⟨[("a.docx", 0)], true, 0, 0, 15, true⟩ 11
    ⟨some "a.docx", 0, some false, true⟩ "a.docx" rfl (by decide) rfl (by decide) rfl

/-- C5 counterexample: the claim "the document's SaveRecord entry is set to
the current monotonic time" fails for a document whose `FullName` is not
available: the before-save handler computes `path = None`, skips the
`if path:` branch, and the service state is completely unchanged — in
particular the registry stays empty, so no entry (not even under the
document's synthetic identity) holds the time 42. -/
theorem C5_counterexample :
    (on_document_before_save ⟨[], true, 0, 0, 15, true⟩ 42
        ⟨none, 7, some false, true⟩ false).1 = ⟨[], true, 0, 0, 15, true⟩ ∧
    dictGet (on_document_before_save ⟨[], true, 0, 0, 15, true⟩ 42
        ⟨none, 7, some false, true⟩ false).1.last_save_times
      (docPath ⟨none, 7, some false, true⟩) 0 = 0 := by
  exact ⟨rfl, rfl⟩

/-- C5 (amended): on a document-before-save (manual save) notification,
provided the document's full path is available (and truthy), the entry for
that path is set to the current monotonic time immediately — regardless of
the dirty flag or debounce, i.e. without invoking the Save-Eligibility
Policy — no save call is issued, the `cancel` flag is returned untouched
(the manual save is neither blocked nor altered), and no other service
state changes. Without an available path, nothing changes at all. -/
theorem C5_manual_save_records_path (st : ServiceState) (now : Int)
    (doc : Doc) (cancel : Bool) (p : String)
    (hp : doc.fullName = some p) (hne : p ≠ "") :
    on_document_before_save st now doc cancel =
      ({st with last_save_times := dictSet st.last_save_times p now}, 0, cancel) ∧
    dictGet (on_document_before_save st now doc cancel).1.last_save_times p 0 = now := by
  have hk : handler_key doc = some p := by simp [handler_key, hp, hne]
  refine ⟨by simp only [on_document_before_save, hk], ?_⟩
  simp only [on_document_before_save, hk]
  exact dictGet_dictSet_self _ p now

/-- Witness for the amended C5: a manual save on a document with a path
records the time under that path, issues no save call, and leaves the
cancel flag and the rest of the state alone — even though the document is
dirty and long past its debounce window. -/
theorem C5_witness :
    on_document_before_save ⟨[("a.docx", 0)], true, 0, 0, 15, true⟩ 42
        ⟨some "a.docx", 0, some false, true⟩ false =
      (⟨dictSet [("a.docx", 0)] "a.docx" 42, true, 0, 0, 15, true⟩, 0, false) ∧
    dictGet (on_document_before_save ⟨[("a.docx", 0)], true, 0, 0, 15, true⟩ 42
        ⟨some "a.docx", 0, some false, true⟩ false).1.last_save_times "a.docx" 0 = 42 :=
  C5_manual_save_records_path ⟨[("a.docx", 0)], true, 0, 0, 15, true⟩ 42
    ⟨some "a.docx", 0, some false, true⟩ false "a.docx" rfl (by decide)

/-- C9 counterexample: the claim that `try_autosave`, the before-save
handler and the before-close handler all compute the same identity — "full
path when available, else a process-local synthetic identifier" — fails
for a document without an available `FullName`: `try_autosave` keys the
registry by `Unknown_{id(doc)}` while the handlers compute `None` and never
touch the registry under the synthetic identity. -/
theorem C9_counterexample :
    handler_key ⟨none, 7, some false, true⟩ ≠
      some (docPath ⟨none, 7, some false, true⟩) := by
  decide

/-- C9 (amended): when the document's full path is available (and truthy),
all three registry-keying operations compute the same stable identity, the
full path; when it is not, `try_autosave` keys by the synthetic identifier
`Unknown_{id(doc)}` while the before-save and before-close handlers compute
no key and leave the registry untouched. -/
theorem C9_identity_keys (doc : Doc) :
    (∀ p : String, doc.fullName = some p → p ≠ "" →
      docPath doc = p ∧ handler_key doc = some p) ∧
    (doc.fullName = none →
      docPath doc = "Unknown_" ++ toString doc.wrapperId ∧
      handler_key doc = none) := by
  constructor
  · intro p hp hne
    exact ⟨by simp [docPath, hp], by simp [handler_key, hp, hne]⟩
  · intro h
    exact ⟨by simp [docPath, h], by simp [handler_key, h]⟩

/-- Witness for the amended C9, at a document with a path and one without. -/
theorem C9_witness :
    (docPath ⟨some "a.docx", 0, some false, true⟩ = "a.docx" ∧
     handler_key ⟨some "a.docx", 0, some false, true⟩ = some "a.docx") ∧
    (docPath ⟨none, 7, some false, true⟩ = "Unknown_" ++ toString (7 : Nat) ∧
     handler_key ⟨none, 7, some false, true⟩ = none) :=
  ⟨(C9_identity_keys ⟨some "a.docx", 0, some false, true⟩).1 "a.docx" rfl (by decide),
   (C9_identity_keys ⟨none, 7, some false, true⟩).2 rfl⟩

/-! ### Claims about the connection manager -/

/-- C6: if acquiring the Word handle succeeds but registering for live
notifications fails, `connect_to_word` still reports success — the state
becomes connected and it returns `True` — and the polling interval is
clamped to `min(polling_interval, 5)`; no other state field changes. -/
theorem C6_connect_without_events (st : ServiceState) :
    connect_to_word true false st =
      ({st with connected := true,
                polling_interval := min st.polling_interval 5}, true) := by
  simp [connect_to_word]

/-- Closed form for consecutive all-failing ticks while the counter is still
within the threshold: each tick only increments `reconnect_attempts`, makes
no `connect_to_word` call, and stays disconnected. -/
theorem run_fail_ticks_eq (threshold : Nat) :
    ∀ (n : Nat) (st : ServiceState), st.connected = false →
      st.reconnect_attempts + n ≤ threshold →
      run_fail_ticks threshold st n =
        ({st with reconnect_attempts := st.reconnect_attempts + n}, 0)
  | 0, st, _, _ => rfl
  | n + 1, st, hconn, hle => by
    have hng : ¬ (st.reconnect_attempts + 1 > threshold) := by omega
    have hstep : conn_tick threshold st false false false =
        ({st with reconnect_attempts := st.reconnect_attempts + 1}, 0) := by
      simp [conn_tick, check_connection, handle_reconnect, hconn, hng]
    have ih := run_fail_ticks_eq threshold n
      {st with reconnect_attempts := st.reconnect_attempts + 1}
      hconn (show st.reconnect_attempts + 1 + n ≤ threshold by omega)
    have harith : st.reconnect_attempts + 1 + n =
        st.reconnect_attempts + (n + 1) := by omega
    simp only [run_fail_ticks, hstep, ih, harith]

/-- C3: the connection state machine. A liveness-probe failure flips the
state to disconnected; from there, each of the first `n ≤ threshold`
all-failing scheduler ticks only increments the reconnect-attempt counter
and makes no `connect_to_word` call; the `(threshold + 1)`-th consecutive
failing tick makes exactly one `connect_to_word` call (and a failed
attempt does not reset the counter); a successful reconnect on that tick
resets the counter to zero and restores the connected state. -/
theorem C3_reconnect_state_machine (threshold n : Nat) (st : ServiceState)
    (hconn : st.connected = true) (hatt : st.reconnect_attempts = 0)
    (hn : n ≤ threshold) :
    check_connection st false = {st with connected := false} ∧
    run_fail_ticks threshold {st with connected := false} n =
      ({st with connected := false, reconnect_attempts := n}, 0) ∧
    conn_tick threshold
        (run_fail_ticks threshold {st with connected := false} threshold).1
        false false false =
      ({st with connected := false, reconnect_attempts := threshold + 1}, 1) ∧
    (conn_tick threshold
        (run_fail_ticks threshold {st with connected := false} threshold).1
        false true true).1.reconnect_attempts = 0 ∧
    (conn_tick threshold
        (run_fail_ticks threshold {st with connected := false} threshold).1
        false true true).1.connected = true := by
  obtain ⟨ls, c, ra, lp, pi, ru⟩ := st
  have hc : c = true := hconn
  have hr : ra = 0 := hatt
  subst hc
  subst hr
  have h1 : check_connection ⟨ls, true, 0, lp, pi, ru⟩ false =
      (⟨ls, false, 0, lp, pi, ru⟩ : ServiceState) := by
    simp [check_connection]
  have h2 := run_fail_ticks_eq threshold n (⟨ls, false, 0, lp, pi, ru⟩ : ServiceState)
    rfl (show 0 + n ≤ threshold by omega)
  simp only [Nat.zero_add] at h2
  have h3 := run_fail_ticks_eq threshold threshold
    (⟨ls, false, 0, lp, pi, ru⟩ : ServiceState)
    rfl (show 0 + threshold ≤ threshold by omega)
  simp only [Nat.zero_add] at h3
  have hgt : threshold + 1 > threshold := Nat.lt_succ_self threshold
  refine ⟨h1, h2, ?_, ?_, ?_⟩
  · rw [h3]
    simp [conn_tick, check_connection, handle_reconnect, connect_to_word, hgt]
  · rw [h3]
    simp [conn_tick, check_connection, handle_reconnect, connect_to_word, hgt]
  · rw [h3]
    simp [conn_tick, check_connection, handle_reconnect, connect_to_word, hgt]

set_option maxRecDepth 8000 in
/-- Witness for C3 at the spec's scenario: threshold 20, starting connected
with a zero counter; 20 failing ticks make no connect call, the 21st makes
exactly one, and a successful reconnect on it resets the counter. -/
theorem C3_witness :
    run_fail_ticks 20 ⟨[], false, 0, 0, 15, true⟩ 20 =
      (⟨[], false, 20, 0, 15, true⟩, 0) ∧
    conn_tick 20 (run_fail_ticks 20 ⟨[], false, 0, 0, 15, true⟩ 20).1
        false false false =
      (⟨[], false, 21, 0, 15, true⟩, 1) ∧
    (conn_tick 20 (run_fail_ticks 20 ⟨[], false, 0, 0, 15, true⟩ 20).1
        false true true).1.reconnect_attempts = 0 ∧
    (conn_tick 20 (run_fail_ticks 20 ⟨[], false, 0, 0, 15, true⟩ 20).1
        false true true).1.connected = true :=
  ⟨(C3_reconnect_state_machine 20 20 ⟨[], true, 0, 0, 15, true⟩ rfl rfl
      (by decide)).2.1,
   (C3_reconnect_state_machine 20 20 ⟨[], true, 0, 0, 15, true⟩ rfl rfl
      (by decide)).2.2.1,
   (C3_reconnect_state_machine 20 20 ⟨[], true, 0, 0, 15, true⟩ rfl rfl
      (by decide)).2.2.2.1,
   (C3_reconnect_state_machine 20 20 ⟨[], true, 0, 0, 15, true⟩ rfl rfl
      (by decide)).2.2.2.2⟩

end WordLocalAutosave
